import Mathlib

/-!
# rostiled : `tiled2sdl.h`

A shallow embedding of the classes `Movable` and `MapRenderer` of
`include/rostiled/tiled2sdl.h`, and theorems about them.

Conventions of the embedding.

* `double` is an arbitrary linearly ordered field `α` with a floor function
  (`ℚ` is an executable instance, `ℝ` the intended one).  Rounding, infinities
  and NaN are outside this model.
* The libm functions `hypot`, `atan2`, `cos`, `sin` are parameters of the
  definitions that call them.
* Functions of `rostiled/utils.h` (`point_in_layer_staggered`,
  `gid_clear_flags`) and the outcome of SDL calls are parameters as well.
* `unsigned int` is `Nat` reduced modulo `2^32` where the code does arithmetic
  on it, `int` is `Int`; `(int) u` is `toInt32`, storing an `int` into an
  `unsigned int` is `toUInt32`.
* `std::vector` is `List`; an access outside the vector is `none`.
-/

namespace Rostiled

/-! ## Machine integers -/

/-- The conversion `(int) u` of an `unsigned int` (two's complement, 32 bits). -/
def toInt32 (u : Nat) : Int :=
  if u % 2 ^ 32 < 2 ^ 31 then ((u % 2 ^ 32 : Nat) : Int) else ((u % 2 ^ 32 : Nat) : Int) - 2 ^ 32

/-- The conversion of an `int` to `unsigned int`. -/
def toUInt32 (z : Int) : Nat :=
  (z % 2 ^ 32).toNat

/-! ## SDL and tmx data -/

/-- An `SDL_Point`. -/
structure SDL_Point where
  x : Int
  y : Int
deriving DecidableEq, Repr

/-- An `SDL_Rect`. -/
structure SDL_Rect where
  x : Int
  y : Int
  w : Int
  h : Int
deriving DecidableEq, Repr

/-- A texture handle (`SDL_TexturePtr`). -/
abbrev SDL_TexturePtr := Nat

/-- The fields of `tmx_map` the code reads. -/
structure tmx_map where
  width : Nat
  height : Nat
  tile_width : Nat
  tile_height : Nat
deriving DecidableEq, Repr

/-- The field `content.gids` of a `tmx_layer`: a pointer to the tile
identifiers, read as a function of the index. -/
structure tmx_layer where
  gids : Nat → Nat

section Double

variable {α : Type} [LinearOrderedField α]

/-- The conversion of a `double` to `int`: truncation towards zero. -/
def truncToInt [FloorRing α] (d : α) : Int :=
  if 0 ≤ d then Int.floor d else Int.ceil d

/-- The macro `DEG2RAD`. -/
def DEG2RAD : α := 1745329251994329577 / 100000000000000000000

/-! ## class Movable -/

/-- The data members of `Movable` (the timer is an input of `update`). -/
structure Movable (α : Type) where
  _maxspeed : α
  _xortho : α
  _yortho : α
  _angle : α
  _xspeed : α
  _yspeed : α
  _textures : List SDL_TexturePtr
  _ntextures : Nat
  _angles : List α
  _cosangles : List α
  _sinangles : List α
  _centers : List SDL_Point
  _sizes : List SDL_Rect

/-- The constructor `Movable()`. -/
def Movable.new : Movable α :=
  ⟨1, 0, 0, 0, 0, 0, [], 0, [], [], [], [], []⟩

/-- The method `Movable::advance`. -/
def Movable.advance (cos sin : α → α) (self : Movable α) (dist : α) : Movable α :=
  { self with
    _xortho := self._xortho + cos (-self._angle) * dist
    _yortho := self._yortho + sin (-self._angle) * dist }

/-- The method `Movable::update`; `time` is what `_update_timer.getTimeSeconds()`
returned. The returned `bool` is always `true`. -/
def Movable.update (hypot atan2 : α → α → α)
    (point_in_layer_staggered : tmx_map → tmx_layer → α → α → List Bool → Bool)
    (time : α) (self : Movable α)
    (map : tmx_map) (obstacle_layer : tmx_layer) (diamond_hittest : List Bool) :
    Bool × Movable α :=
  let currspeed := hypot self._xspeed self._yspeed
  -- rotate towards speed direction
  let self1 : Movable α :=
    if currspeed > 1 / 100 then { self with _angle := atan2 self._yspeed self._xspeed }
    else self
  -- normalize speed if going too fast: the body of this `if` is empty
  let self2 : Movable α := if currspeed > self1._maxspeed then self1 else self1
  let newx := self2._xortho + time * self2._xspeed
  let newy := self2._yortho + time * self2._yspeed
  if point_in_layer_staggered map obstacle_layer newx (newy / 2) diamond_hittest then
    (true, self2)
  else
    (true, { self2 with _xortho := newx, _yortho := newy })

/-- One draw operation handed to SDL: a sprite blit (`SDL_RenderCopy` of a
texture with its source and destination rectangles) or a call of `render_tile`
for the tile `gid` at `(col, row)`. -/
inductive DrawOp where
  | sprite (tex : SDL_TexturePtr) (srcrect dstrect : SDL_Rect)
  | tile (gid col row : Nat)
deriving DecidableEq, Repr

/-- The `for` loop of `Movable::render`: `k` iterations are left, `i` is the loop
counter and `best` is `(best_idx, best_dist)`. -/
def Movable.best_loop (self : Movable α) (cosa sina : α) :
    Nat → Nat → Nat × α → Option (Nat × α)
  | 0, _, best => some best
  | k + 1, i, best => do
    let c ← self._cosangles[i]?
    let s ← self._sinangles[i]?
    let dist := |c - cosa| + |s - sina|
    Movable.best_loop self cosa sina k (i + 1) (if best.2 > dist then (i, dist) else best)

/-- The value of `best_idx` after the loop of `Movable::render`. -/
def Movable.best_idx (cos sin : α → α) (self : Movable α) : Option Nat :=
  (Movable.best_loop self (cos self._angle) (-sin self._angle) self._ntextures 0
    (0, 1000000)).map Prod.fst

/-- The method `Movable::render`: the returned `bool` and the blit that was done.
`SDL_RenderCopy` gives the return code of the SDL call. -/
def Movable.render [FloorRing α] (cos sin : α → α)
    (SDL_RenderCopy : SDL_TexturePtr → SDL_Rect → SDL_Rect → Int)
    (self : Movable α) : Option (Bool × List DrawOp) :=
  if self._ntextures = 0 ∨ self._ntextures ≠ self._angles.length then
    some (false, [])
  else do
    let best_idx ← Movable.best_idx cos sin self
    let tex ← self._textures[best_idx]?
    let srcrect ← self._sizes[best_idx]?
    let center ← self._centers[best_idx]?
    let dstrect : SDL_Rect :=
      { srcrect with
        x := truncToInt (self._xortho - (center.x : α))
        y := truncToInt (self._yortho / 2 - (center.y : α)) }
    if SDL_RenderCopy tex srcrect dstrect < 0 then
      some (false, [])
    else
      some (true, [DrawOp.sprite tex srcrect dstrect])


/-! ### Movable::create

The XML descriptor and the image files are outside the program: `create` gets
what `xmlReadFile` and the SDL calls returned. -/

/-- A `view` element of the descriptor with what the SDL calls returned for it. -/
structure View (α : Type) where
  /-- The value of `atof` on the attribute `angle` (degrees). -/
  angle : α
  /-- The value of `atoi` on the attribute `centerx`. -/
  centerx : Int
  /-- The value of `atoi` on the attribute `centery`. -/
  centery : Int
  /-- Whether `IMG_Load` returned a surface. -/
  surf : Bool
  /-- What `SDL_CreateTextureFromSurface` returned (`none` for null). -/
  tex : Option SDL_TexturePtr
  /-- The `(w, h)` of `SDL_QueryTexture`, `none` when it returned an error. -/
  query : Option (Int × Int)

/-- A child node of the root element. -/
inductive XmlNode (α : Type) where
  | view (v : View α)
  | other

/-- A parsed descriptor: the attribute `scale` of the root and its children. -/
structure XmlDoc (α : Type) where
  scale : α
  children : List (XmlNode α)

/-- The `while (cur != NULL)` loop of `Movable::create`: `false` with the state
reached at the failing `return`, or `true` with the state after the last node. -/
def Movable.create_loop [FloorRing α] (cos sin : α → α) (scale : α) :
    List (XmlNode α) → Movable α → Bool × Movable α
  | [], self => (true, self)
  | XmlNode.other :: rest, self => Movable.create_loop cos sin scale rest self
  | XmlNode.view v :: rest, self =>
    let angle := v.angle * DEG2RAD
    let center : SDL_Point :=
      ⟨truncToInt (scale * (v.centerx : α)), truncToInt (scale * (v.centery : α))⟩
    if !v.surf then (false, self)
    else
      match v.tex with
      | none => (false, self)
      | some tex =>
        match v.query with
        | none => (false, self)
        | some (w, h) =>
          let size : SDL_Rect := ⟨0, 0, w, h⟩
          if w = 0 ∨ h = 0 then (false, self)
          else
            Movable.create_loop cos sin scale rest
              { self with
                _textures := self._textures ++ [tex]
                _sizes := self._sizes ++ [size]
                _angles := self._angles ++ [angle]
                _cosangles := self._cosangles ++ [cos angle]
                _sinangles := self._sinangles ++ [sin angle]
                _centers := self._centers ++ [center] }

/-- The method `Movable::create`. `renderer` is `false` for a null renderer and
`doc` is what `xmlReadFile` returned. -/
def Movable.create [FloorRing α] (cos sin : α → α) (self : Movable α)
    (renderer : Bool) (doc : Option (XmlDoc α))
    (maxspeed xortho yortho angle : α) : Bool × Movable α :=
  if !renderer then (false, self)
  else
    let self1 : Movable α :=
      { self with _maxspeed := maxspeed, _xortho := xortho, _yortho := yortho, _angle := angle }
    match doc with
    | none => (false, self1)
    | some d =>
      match Movable.create_loop cos sin d.scale d.children self1 with
      | (false, self2) => (false, self2)
      | (true, self2) => (true, { self2 with _ntextures := self2._textures.length })

/-! ## class MapRenderer -/

/-- The data members of `MapRenderer` that the modelled methods use.
`_renderer` is `false` for a null pointer. -/
structure MapRenderer (α : Type) where
  _renderer : Bool
  _diamond_hittest : List Bool
  _map : tmx_map
  _obstacles_layer : tmx_layer
  _nmovables : Nat
  _movables : List (Movable α)
  _movable_rows : List Nat

/-- The method `MapRenderer::create_movable`; `none` is an access outside
`_movables`. -/
def MapRenderer.create_movable [FloorRing α] (cos sin : α → α) (self : MapRenderer α)
    (doc : Option (XmlDoc α)) (maxspeed xortho yortho angle : α) :
    Option (Bool × MapRenderer α) :=
  let nmovables := (self._nmovables + 1) % 2 ^ 32
  let movables := self._movables ++ [Movable.new]
  let idx := (nmovables + 2 ^ 32 - 1) % 2 ^ 32
  match movables[idx]? with
  | none => none
  | some m =>
    let r := Movable.create cos sin m self._renderer doc maxspeed xortho yortho angle
    some (r.1, { self with _nmovables := nmovables, _movables := movables.set idx r.2 })


/-- The scancodes `MapRenderer::update` distinguishes. -/
inductive SDL_Scancode where
  | SDL_SCANCODE_Q
  | SDL_SCANCODE_LEFT
  | SDL_SCANCODE_RIGHT
  | SDL_SCANCODE_UP
  | SDL_SCANCODE_DOWN
  | other
deriving DecidableEq, Repr

/-- The events `MapRenderer::update` distinguishes, with the fields it reads. -/
inductive SDL_Event where
  | SDL_QUIT
  | SDL_MOUSEMOTION (x y : Int)
  | SDL_KEYDOWN (scancode : SDL_Scancode)
  | SDL_JOYAXISMOTION (which : Int) (axis : Nat) (value : Int)
  | other
deriving DecidableEq, Repr

/-- The test `event.jaxis.which <= (int) _nmovables` of `MapRenderer::update`. -/
def MapRenderer.joyaxis_guard (self : MapRenderer α) (which : Int) : Bool :=
  decide (which ≤ toInt32 self._nmovables)

/-- The branch `SDL_JOYAXISMOTION` of `MapRenderer::update`; `none` is an access
outside `_movables`. -/
def MapRenderer.on_joyaxismotion (self : MapRenderer α) (which : Int) (axis : Nat)
    (value : Int) : Option (MapRenderer α) :=
  if MapRenderer.joyaxis_guard self which then
    if which < 0 then none
    else
      match self._movables[which.toNat]? with
      | none => none
      | some car =>
        if axis = 0 then
          some { self with
            _movables := self._movables.set which.toNat
              { car with _xspeed := ((Int.tdiv value 100 : Int) : α) } }
        else if axis = 1 then
          some { self with
            _movables := self._movables.set which.toNat
              { car with _yspeed := ((Int.tdiv value 100 : Int) : α) } }
        else some self
  else some self

/-- The branch `SDL_KEYDOWN` of `MapRenderer::update` after the test for `Q`;
`none` is `_movables.front()` on an empty vector. -/
def MapRenderer.on_keydown (cos sin : α → α) (self : MapRenderer α) (sc : SDL_Scancode) :
    Option (MapRenderer α) :=
  match sc with
  | SDL_Scancode.SDL_SCANCODE_LEFT =>
    match self._movables with
    | [] => none
    | m :: rest => some { self with _movables := { m with _angle := m._angle - 1 / 10 } :: rest }
  | SDL_Scancode.SDL_SCANCODE_RIGHT =>
    match self._movables with
    | [] => none
    | m :: rest => some { self with _movables := { m with _angle := m._angle + 1 } :: rest }
  | SDL_Scancode.SDL_SCANCODE_UP =>
    match self._movables with
    | [] => none
    | m :: rest => some { self with _movables := Movable.advance cos sin m 10 :: rest }
  | SDL_Scancode.SDL_SCANCODE_DOWN =>
    match self._movables with
    | [] => none
    | m :: rest => some { self with _movables := Movable.advance cos sin m (-5) :: rest }
  | _ => some self

/-- The loop `while (SDL_PollEvent(&event))` of `MapRenderer::update` over the
pending events: `false` when the loop returned `false`. -/
def MapRenderer.poll_events (cos sin : α → α) :
    List SDL_Event → MapRenderer α → Option (Bool × MapRenderer α)
  | [], self => some (true, self)
  | SDL_Event.SDL_QUIT :: _, self => some (false, self)
  | SDL_Event.SDL_MOUSEMOTION _ _ :: rest, self => MapRenderer.poll_events cos sin rest self
  | SDL_Event.SDL_KEYDOWN sc :: rest, self =>
    if sc = SDL_Scancode.SDL_SCANCODE_Q then some (false, self)
    else
      match MapRenderer.on_keydown cos sin self sc with
      | none => none
      | some self1 => MapRenderer.poll_events cos sin rest self1
  | SDL_Event.SDL_JOYAXISMOTION which axis value :: rest, self =>
    match MapRenderer.on_joyaxismotion self which axis value with
    | none => none
    | some self1 => MapRenderer.poll_events cos sin rest self1
  | SDL_Event.other :: rest, self => MapRenderer.poll_events cos sin rest self

/-- The loop `update cars` of `MapRenderer::update`: `k` iterations are left and
`i` is the loop counter; `time i` is the timer reading of entity `i`. -/
def MapRenderer.update_cars (hypot atan2 : α → α → α)
    (point_in_layer_staggered : tmx_map → tmx_layer → α → α → List Bool → Bool)
    (time : Nat → α) (map : tmx_map) (layer : tmx_layer) (mask : List Bool) :
    Nat → Nat → List (Movable α) → Option (List (Movable α))
  | 0, _, movables => some movables
  | k + 1, i, movables =>
    match movables[i]? with
    | none => none
    | some m =>
      MapRenderer.update_cars hypot atan2 point_in_layer_staggered time map layer mask k (i + 1)
        (movables.set i
          (Movable.update hypot atan2 point_in_layer_staggered (time i) m map layer mask).2)

/-- The method `MapRenderer::update` on the pending `events`. -/
def MapRenderer.update (hypot atan2 : α → α → α) (cos sin : α → α)
    (point_in_layer_staggered : tmx_map → tmx_layer → α → α → List Bool → Bool)
    (time : Nat → α) (events : List SDL_Event) (self : MapRenderer α) :
    Option (Bool × MapRenderer α) :=
  match MapRenderer.poll_events cos sin events self with
  | none => none
  | some (false, self1) => some (false, self1)
  | some (true, self1) =>
    match MapRenderer.update_cars hypot atan2 point_in_layer_staggered time self1._map
        self1._obstacles_layer self1._diamond_hittest self1._nmovables 0 self1._movables with
    | none => none
    | some movables => some (true, { self1 with _movables := movables })


/-- The row `render_cars_obstacles` stores in `_movable_rows[i]` for an entity
at vertical position `yortho`. -/
def MapRenderer.movable_row [FloorRing α] (map : tmx_map) (yortho : α) : Nat :=
  let row : Int := truncToInt (yortho / (map.tile_height : α))
  let row : Int :=
    if row < 0 then 0
    else if row ≥ toInt32 map.height then toInt32 map.height
    else row
  toUInt32 row

/-- The first loop of `render_cars_obstacles`: the content of `_movable_rows`
after it (`k` iterations are left, `i` is the loop counter). -/
def MapRenderer.fill_rows [FloorRing α] (map : tmx_map) (movables : List (Movable α)) :
    Nat → Nat → List Nat → Option (List Nat)
  | 0, _, rows => some rows
  | k + 1, i, rows =>
    match movables[i]? with
    | none => none
    | some m =>
      if i < rows.length then
        MapRenderer.fill_rows map movables k (i + 1)
          (rows.set i (MapRenderer.movable_row map m._yortho))
      else none

/-- The method `std::vector::resize` with the value `0` for new elements. -/
def resize (rows : List Nat) (n : Nat) : List Nat :=
  rows.take n ++ List.replicate (n - rows.length) 0

/-- The loop `render cars of this row` of `render_cars_obstacles`: `k` iterations
are left, `i` is the loop counter. The result is `false` when a `render` failed
(the method returns at once), with the blits done so far. -/
def MapRenderer.render_cars [FloorRing α] (cos sin : α → α)
    (SDL_RenderCopy : SDL_TexturePtr → SDL_Rect → SDL_Rect → Int)
    (movables : List (Movable α)) (rows : List Nat) (row : Nat) :
    Nat → Nat → Option (Bool × List DrawOp)
  | 0, _ => some (true, [])
  | k + 1, i =>
    match rows[i]? with
    | none => none
    | some r =>
      if r = row then
        match movables[i]? with
        | none => none
        | some m =>
          match Movable.render cos sin SDL_RenderCopy m with
          | none => none
          | some (false, ops) => some (false, ops)
          | some (true, ops) =>
            match MapRenderer.render_cars cos sin SDL_RenderCopy movables rows row k (i + 1) with
            | none => none
            | some (ok, ops1) => some (ok, ops ++ ops1)
      else MapRenderer.render_cars cos sin SDL_RenderCopy movables rows row k (i + 1)

/-- The loop `render tiles of this row` of `render_cars_obstacles`: `k`
iterations are left, `col` is the loop counter. -/
def MapRenderer.render_tiles (gid_clear_flags : Nat → Nat) (map : tmx_map) (layer : tmx_layer)
    (row : Nat) : Nat → Nat → List DrawOp
  | 0, _ => []
  | k + 1, col =>
    DrawOp.tile (gid_clear_flags (layer.gids ((row * map.width + col) % 2 ^ 32))) col row ::
      MapRenderer.render_tiles gid_clear_flags map layer row k (col + 1)

/-- The loop over the rows of `render_cars_obstacles`: `k` iterations are left,
`row` is the loop counter. -/
def MapRenderer.render_rows [FloorRing α] (cos sin : α → α) (gid_clear_flags : Nat → Nat)
    (SDL_RenderCopy : SDL_TexturePtr → SDL_Rect → SDL_Rect → Int)
    (map : tmx_map) (layer : tmx_layer) (nmovables : Nat)
    (movables : List (Movable α)) (rows : List Nat) :
    Nat → Nat → Option (Bool × List DrawOp)
  | 0, _ => some (true, [])
  | k + 1, row =>
    match MapRenderer.render_cars cos sin SDL_RenderCopy movables rows row nmovables 0 with
    | none => none
    | some (false, ops) => some (false, ops)
    | some (true, ops) =>
      let tiles := MapRenderer.render_tiles gid_clear_flags map layer row map.width 0
      match MapRenderer.render_rows cos sin gid_clear_flags SDL_RenderCopy map layer nmovables
          movables rows k (row + 1) with
      | none => none
      | some (ok, ops1) => some (ok, ops ++ tiles ++ ops1)

/-- The method `MapRenderer::render_cars_obstacles`: the returned `bool`, the
sequence of draw operations and the object after the call. -/
def MapRenderer.render_cars_obstacles [FloorRing α] (cos sin : α → α)
    (gid_clear_flags : Nat → Nat)
    (SDL_RenderCopy : SDL_TexturePtr → SDL_Rect → SDL_Rect → Int)
    (self : MapRenderer α) : Option (Bool × List DrawOp × MapRenderer α) :=
  match MapRenderer.fill_rows self._map self._movables self._nmovables 0
      (resize self._movable_rows self._nmovables) with
  | none => none
  | some rows =>
    match MapRenderer.render_rows cos sin gid_clear_flags SDL_RenderCopy self._map
        self._obstacles_layer self._nmovables self._movables rows self._map.height 0 with
    | none => none
    | some (ok, ops) => some (ok, ops, { self with _movable_rows := rows })


/-- Two successive calls of `Movable::update`, both with the timer reading `time`. -/
def Movable.update_twice (hypot atan2 : α → α → α)
    (point_in_layer_staggered : tmx_map → tmx_layer → α → α → List Bool → Bool)
    (time : α) (self : Movable α)
    (map : tmx_map) (obstacle_layer : tmx_layer) (diamond_hittest : List Bool) : Movable α :=
  (Movable.update hypot atan2 point_in_layer_staggered time
    (Movable.update hypot atan2 point_in_layer_staggered time self map obstacle_layer
      diamond_hittest).2 map obstacle_layer diamond_hittest).2

/-- A map of one tile of 64 by 32 pixels. -/
def one_tile_map : tmx_map := ⟨1, 1, 64, 32⟩

/-- A layer without obstacle: every tile identifier is zero. -/
def empty_layer : tmx_layer := ⟨fun _ => 0⟩


/-- The distance `Movable::render` computes for the orientation `j`. -/
def Movable.dist (self : Movable α) (cosa sina : α) (j : Nat) : α :=
  |self._cosangles.getD j 0 - cosa| + |self._sinangles.getD j 0 - sina|

/-- The distance `d_j = |cos(angle_j) - cos(heading)| + |sin(angle_j) - (-sin(heading))|`
between the orientation `j` of an entity and its heading. -/
def Movable.angle_dist (cos sin : α → α) (self : Movable α) (j : Nat) : α :=
  |cos (self._angles.getD j 0) - cos self._angle| +
    |sin (self._angles.getD j 0) - (-sin self._angle)|


/-- The texture handle of sprite `A`. -/
def sprite_A : SDL_TexturePtr := 0

/-- The texture handle of sprite `B`. -/
def sprite_B : SDL_TexturePtr := 1

/-- The texture handle of sprite `C`. -/
def sprite_C : SDL_TexturePtr := 2

/-- The texture handle of sprite `D`. -/
def sprite_D : SDL_TexturePtr := 3

/-- An entity at `(0, 0)` as `Movable::create` builds it from the views
`(0°, A), (90°, B), (180°, C), (270°, D)` (angles `0, pi/2, pi, 3*pi/2`, with
sprites of 1 by 1 pixel and pivot `(0, 0)`), turned to `heading`. -/
def four_orientations (cos sin : α → α) (pi heading : α) : Movable α :=
  { _maxspeed := 1, _xortho := 0, _yortho := 0, _angle := heading, _xspeed := 0, _yspeed := 0,
    _textures := [sprite_A, sprite_B, sprite_C, sprite_D],
    _ntextures := 4,
    _angles := [0, pi / 2, pi, 3 * pi / 2],
    _cosangles := [cos 0, cos (pi / 2), cos pi, cos (3 * pi / 2)],
    _sinangles := [sin 0, sin (pi / 2), sin pi, sin (3 * pi / 2)],
    _centers := [⟨0, 0⟩, ⟨0, 0⟩, ⟨0, 0⟩, ⟨0, 0⟩],
    _sizes := [⟨0, 0, 1, 1⟩, ⟨0, 0, 1, 1⟩, ⟨0, 0, 1, 1⟩, ⟨0, 0, 1, 1⟩] }


/-! ### The painter's order, stated from the specification -/

/-- The blit of one entity: the draw operations of its `Movable::render`. -/
def Movable.blit [FloorRing α] (cos sin : α → α)
    (SDL_RenderCopy : SDL_TexturePtr → SDL_Rect → SDL_Rect → Int)
    (m : Movable α) : List DrawOp :=
  match Movable.render cos sin SDL_RenderCopy m with
  | some (_, ops) => ops
  | none => []

/-- The entities whose computed row equals `r`, in entity-list order. -/
def MapRenderer.entities_of_row [FloorRing α] (map : tmx_map) (movables : List (Movable α))
    (r : Nat) : List (Movable α) :=
  movables.filter (fun m => decide (MapRenderer.movable_row map m._yortho = r))

/-- The tiles `(col, r)` for `col = 0..width-1`, left to right, each with its
identifier without the flag bits. -/
def MapRenderer.tiles_of_row (gid_clear_flags : Nat → Nat) (map : tmx_map) (layer : tmx_layer)
    (r : Nat) : List DrawOp :=
  (List.range map.width).map
    (fun col => DrawOp.tile (gid_clear_flags (layer.gids ((r * map.width + col) % 2 ^ 32))) col r)

/-- The draw sequence of the specification: for `r = 0, 1, ..., height-1`, first
the entities whose computed row is `r`, in entity-list order, then the tiles of
the row `r`, left to right. -/
def MapRenderer.painters_order [FloorRing α] (cos sin : α → α) (gid_clear_flags : Nat → Nat)
    (SDL_RenderCopy : SDL_TexturePtr → SDL_Rect → SDL_Rect → Int)
    (self : MapRenderer α) : List DrawOp :=
  (List.range self._map.height).flatMap (fun r =>
    (MapRenderer.entities_of_row self._map self._movables r).flatMap
        (Movable.blit cos sin SDL_RenderCopy) ++
      MapRenderer.tiles_of_row gid_clear_flags self._map self._obstacles_layer r)


/-- An entity with the single view `(0°, tex)` (a sprite of 1 by 1 pixel with
pivot `(0, 0)`), at `(x, y)` with heading `0`, as `Movable::create` builds it. -/
def single_view (cos sin : α → α) (tex : SDL_TexturePtr) (x y : α) : Movable α :=
  { _maxspeed := 1, _xortho := x, _yortho := y, _angle := 0, _xspeed := 0, _yspeed := 0,
    _textures := [tex], _ntextures := 1, _angles := [0], _cosangles := [cos 0],
    _sinangles := [sin 0], _centers := [⟨0, 0⟩], _sizes := [⟨0, 0, 1, 1⟩] }

/-- A map of one column and five rows of tiles of 64 by 32 pixels. -/
def five_row_map : tmx_map := ⟨1, 5, 64, 32⟩

/-- The renderer of the scenario of the painter's order: the five-row map without
obstacle and the entities `e1` (texture `11`, at `(5, 96)`) and `e2` (texture `12`,
at `(20, 112)`), in this order. -/
def two_in_row_three (cos sin : α → α) : MapRenderer α :=
  { _renderer := true, _diamond_hittest := [], _map := five_row_map,
    _obstacles_layer := empty_layer, _nmovables := 2,
    _movables := [single_view cos sin 11 5 96, single_view cos sin 12 20 112],
    _movable_rows := [] }

/-- The renderer of the scenario of the row clamp: the one-tile map (one row, tile
height `32`) without obstacle and one entity (texture `7`) at `(0, 32)`. -/
def below_last_row (cos sin : α → α) : MapRenderer α :=
  { _renderer := true, _diamond_hittest := [], _map := one_tile_map,
    _obstacles_layer := empty_layer, _nmovables := 1,
    _movables := [single_view cos sin 7 0 32],
    _movable_rows := [] }


/-- A `MapRenderer` before `init`: null renderer, no entity. -/
def uninitialised_renderer : MapRenderer α :=
  { _renderer := false, _diamond_hittest := [], _map := one_tile_map,
    _obstacles_layer := empty_layer, _nmovables := 0, _movables := [], _movable_rows := [] }

/-- A `MapRenderer` after `init`, without entity. -/
def empty_renderer : MapRenderer α :=
  { _renderer := true, _diamond_hittest := [], _map := one_tile_map,
    _obstacles_layer := empty_layer, _nmovables := 0, _movables := [], _movable_rows := [] }

/-- A `MapRenderer` with exactly one entity, a fresh `Movable()`. -/
def one_entity_renderer : MapRenderer α :=
  { _renderer := true, _diamond_hittest := [], _map := one_tile_map,
    _obstacles_layer := empty_layer, _nmovables := 1, _movables := [Movable.new],
    _movable_rows := [] }

end Double

/-! ## Theorems -/

section Theorems

variable {α : Type} [LinearOrderedField α]

/-- C1: `Movable::update` commits or discards the candidate position as a whole.
With `newX = x + t*vx` and `newY = y + t*vy`, the position after `update` is
`(x, y)` when the collision tester queried at `(newX, newY/2)` reports a
collision, and `(newX, newY)` otherwise, for every state, elapsed time, map,
obstacle layer, mask, collision tester and libm. -/
theorem update_commits_or_discards (hypot atan2 : α → α → α)
    (point_in_layer_staggered : tmx_map → tmx_layer → α → α → List Bool → Bool)
    (t : α) (self : Movable α) (map : tmx_map) (obstacle_layer : tmx_layer)
    (diamond_hittest : List Bool) :
    let newX := self._xortho + t * self._xspeed
    let newY := self._yortho + t * self._yspeed
    let after := (Movable.update hypot atan2 point_in_layer_staggered t self map
      obstacle_layer diamond_hittest).2
    (after._xortho, after._yortho) =
      if point_in_layer_staggered map obstacle_layer newX (newY / 2) diamond_hittest = true
      then (self._xortho, self._yortho) else (newX, newY) := by
  intro newX newY after
  simp only [after, newX, newY, Movable.update]
  split_ifs <;> rfl


/-- C2: after `Movable::update` the heading is `atan2(vy, vx)` when
`hypot(vx, vy) > 1e-2` and the heading before the call when
`hypot(vx, vy) <= 1e-2`, for every state, elapsed time and collision tester
(so whether or not the candidate position collides). -/
theorem heading_after_update (hypot atan2 : α → α → α)
    (point_in_layer_staggered : tmx_map → tmx_layer → α → α → List Bool → Bool)
    (t : α) (self : Movable α) (map : tmx_map) (obstacle_layer : tmx_layer)
    (diamond_hittest : List Bool) :
    (hypot self._xspeed self._yspeed > 1 / 100 →
      (Movable.update hypot atan2 point_in_layer_staggered t self map obstacle_layer
        diamond_hittest).2._angle = atan2 self._yspeed self._xspeed) ∧
    (hypot self._xspeed self._yspeed ≤ 1 / 100 →
      (Movable.update hypot atan2 point_in_layer_staggered t self map obstacle_layer
        diamond_hittest).2._angle = self._angle) := by
  constructor
  · intro h
    simp only [Movable.update, if_pos h]
    split_ifs <;> rfl
  · intro h
    simp only [Movable.update, if_neg (not_lt.mpr h)]
    split_ifs <;> rfl

/-- C2, at concrete inputs over the reals with `hypot(a, b) = sqrt(a*a + b*b)` and
`atan2(y, x) = arg(x + iy)`: an entity with velocity `(1, 0)` gets the heading
`atan2(0, 1)` although its candidate collides, and an entity at rest keeps its
heading `0`. -/
theorem heading_after_update_witness :
    (Movable.update (fun a b : ℝ => Real.sqrt (a * a + b * b))
      (fun y x : ℝ => Complex.arg ⟨x, y⟩) (fun _ _ _ _ _ => true) 1
      { (Movable.new : Movable ℝ) with _xspeed := 1 } one_tile_map empty_layer []).2._angle
        = Complex.arg ⟨1, 0⟩ ∧
    (Movable.update (fun a b : ℝ => Real.sqrt (a * a + b * b))
      (fun y x : ℝ => Complex.arg ⟨x, y⟩) (fun _ _ _ _ _ => false) 1
      (Movable.new : Movable ℝ) one_tile_map empty_layer []).2._angle = 0 :=
  ⟨(heading_after_update (fun a b : ℝ => Real.sqrt (a * a + b * b))
      (fun y x : ℝ => Complex.arg ⟨x, y⟩) (fun _ _ _ _ _ => true) 1
      { (Movable.new : Movable ℝ) with _xspeed := 1 } one_tile_map empty_layer []).1
      (by simp [Movable.new]; norm_num),
   (heading_after_update (fun a b : ℝ => Real.sqrt (a * a + b * b))
      (fun y x : ℝ => Complex.arg ⟨x, y⟩) (fun _ _ _ _ _ => false) 1
      (Movable.new : Movable ℝ) one_tile_map empty_layer []).2
      (by simp [Movable.new])⟩


/-- The position after `Movable::update` with a zero timer reading is the
position before it. -/
theorem update_zero_position (hypot atan2 : α → α → α)
    (point_in_layer_staggered : tmx_map → tmx_layer → α → α → List Bool → Bool)
    (self : Movable α) (map : tmx_map) (obstacle_layer : tmx_layer)
    (diamond_hittest : List Bool) :
    (Movable.update hypot atan2 point_in_layer_staggered 0 self map obstacle_layer
      diamond_hittest).2._xortho = self._xortho ∧
    (Movable.update hypot atan2 point_in_layer_staggered 0 self map obstacle_layer
      diamond_hittest).2._yortho = self._yortho := by
  simp only [Movable.update]
  split_ifs <;> simp

/-- `Movable::update` leaves the velocity as it is. -/
theorem update_speed (hypot atan2 : α → α → α)
    (point_in_layer_staggered : tmx_map → tmx_layer → α → α → List Bool → Bool)
    (t : α) (self : Movable α) (map : tmx_map) (obstacle_layer : tmx_layer)
    (diamond_hittest : List Bool) :
    (Movable.update hypot atan2 point_in_layer_staggered t self map obstacle_layer
      diamond_hittest).2._xspeed = self._xspeed ∧
    (Movable.update hypot atan2 point_in_layer_staggered t self map obstacle_layer
      diamond_hittest).2._yspeed = self._yspeed := by
  simp only [Movable.update]
  split_ifs <;> simp

/-- The heading after `Movable::update`, as one expression. -/
theorem update_angle (hypot atan2 : α → α → α)
    (point_in_layer_staggered : tmx_map → tmx_layer → α → α → List Bool → Bool)
    (t : α) (self : Movable α) (map : tmx_map) (obstacle_layer : tmx_layer)
    (diamond_hittest : List Bool) :
    (Movable.update hypot atan2 point_in_layer_staggered t self map obstacle_layer
      diamond_hittest).2._angle =
      if hypot self._xspeed self._yspeed > 1 / 100 then atan2 self._yspeed self._xspeed
      else self._angle := by
  simp only [Movable.update]
  split_ifs <;> rfl

/-- C3, as the claim states it, fails: over the reals (`hypot(a, b) =
sqrt(a*a + b*b)`, `atan2(y, x) = arg(x + iy)`) the entity at `(0, 0)` with
heading `0` and velocity `(0, 1)` has heading `atan2(1, 0) = π/2` after two
calls of `update` with `elapsedSeconds = 0`. -/
theorem update_twice_zero_turns :
    ¬ ((Movable.update_twice (fun a b : ℝ => Real.sqrt (a * a + b * b))
          (fun y x : ℝ => Complex.arg ⟨x, y⟩) (fun _ _ _ _ _ => false) 0
          { (Movable.new : Movable ℝ) with _yspeed := 1 } one_tile_map empty_layer [])._angle
        = ({ (Movable.new : Movable ℝ) with _yspeed := 1 } : Movable ℝ)._angle) := by
  have hI : (⟨0, 1⟩ : ℂ) = Complex.I := rfl
  have hpi : Real.pi / 2 ≠ 0 := by positivity
  simp only [Movable.update_twice, update_angle, (update_speed _ _ _ _ _ _ _ _).1,
    (update_speed _ _ _ _ _ _ _ _).2]
  simp [Movable.new, hI, Complex.arg_I]
  norm_num [hpi]

/-- C3 (amended): two calls of `Movable::update` with `elapsedSeconds = 0` leave
the position equal to what it was before the first call; they leave the heading
equal to what it was when `hypot(vx, vy) <= 1e-2`, and make it `atan2(vy, vx)`
when `hypot(vx, vy) > 1e-2`. -/
theorem update_twice_zero (hypot atan2 : α → α → α)
    (point_in_layer_staggered : tmx_map → tmx_layer → α → α → List Bool → Bool)
    (self : Movable α) (map : tmx_map) (obstacle_layer : tmx_layer)
    (diamond_hittest : List Bool) :
    (Movable.update_twice hypot atan2 point_in_layer_staggered 0 self map obstacle_layer
      diamond_hittest)._xortho = self._xortho ∧
    (Movable.update_twice hypot atan2 point_in_layer_staggered 0 self map obstacle_layer
      diamond_hittest)._yortho = self._yortho ∧
    (hypot self._xspeed self._yspeed ≤ 1 / 100 →
      (Movable.update_twice hypot atan2 point_in_layer_staggered 0 self map obstacle_layer
        diamond_hittest)._angle = self._angle) ∧
    (hypot self._xspeed self._yspeed > 1 / 100 →
      (Movable.update_twice hypot atan2 point_in_layer_staggered 0 self map obstacle_layer
        diamond_hittest)._angle = atan2 self._yspeed self._xspeed) := by
  simp only [Movable.update_twice, update_angle, (update_speed _ _ _ _ _ _ _ _).1,
    (update_speed _ _ _ _ _ _ _ _).2, (update_zero_position _ _ _ _ _ _ _).1,
    (update_zero_position _ _ _ _ _ _ _).2, true_and]
  constructor
  · intro h
    rw [if_neg (not_lt.mpr h), if_neg (not_lt.mpr h)]
  · intro h
    rw [if_pos h]

/-- C3 (amended), at concrete inputs over the reals: an entity at rest at `(3, 4)`
with heading `2` keeps position and heading, and an entity with velocity
`(1, 0)` gets the heading `atan2(0, 1)`. -/
theorem update_twice_zero_witness :
    (Movable.update_twice (fun a b : ℝ => Real.sqrt (a * a + b * b))
      (fun y x : ℝ => Complex.arg ⟨x, y⟩) (fun _ _ _ _ _ => false) 0
      { (Movable.new : Movable ℝ) with _xortho := 3, _yortho := 4, _angle := 2 }
      one_tile_map empty_layer [])._angle = 2 ∧
    (Movable.update_twice (fun a b : ℝ => Real.sqrt (a * a + b * b))
      (fun y x : ℝ => Complex.arg ⟨x, y⟩) (fun _ _ _ _ _ => false) 0
      { (Movable.new : Movable ℝ) with _xspeed := 1 }
      one_tile_map empty_layer [])._angle = Complex.arg ⟨1, 0⟩ :=
  ⟨(update_twice_zero (fun a b : ℝ => Real.sqrt (a * a + b * b))
      (fun y x : ℝ => Complex.arg ⟨x, y⟩) (fun _ _ _ _ _ => false)
      { (Movable.new : Movable ℝ) with _xortho := 3, _yortho := 4, _angle := 2 }
      one_tile_map empty_layer []).2.2.1 (by simp [Movable.new]),
   (update_twice_zero (fun a b : ℝ => Real.sqrt (a * a + b * b))
      (fun y x : ℝ => Complex.arg ⟨x, y⟩) (fun _ _ _ _ _ => false)
      { (Movable.new : Movable ℝ) with _xspeed := 1 }
      one_tile_map empty_layer []).2.2.2 (by simp [Movable.new]; norm_num)⟩

/-- C4, the code at an input where the claim fails: over the reals, the entity at
`(0, 0)` with `maxSpeed = 1` and velocity `(3, 4)` has speed `5 > maxSpeed`, and
after `update` with `elapsedSeconds = 1` and no collision it is at `(3, 4)`, at
distance `5 > elapsedSeconds * maxSpeed` from where it was. -/
theorem update_ignores_maxspeed :
    (fun a b : ℝ => Real.sqrt (a * a + b * b)) 3 4 >
      ({ (Movable.new : Movable ℝ) with _xspeed := 3, _yspeed := 4 } : Movable ℝ)._maxspeed ∧
    (Movable.update (fun a b : ℝ => Real.sqrt (a * a + b * b))
      (fun y x : ℝ => Complex.arg ⟨x, y⟩) (fun _ _ _ _ _ => false) 1
      { (Movable.new : Movable ℝ) with _xspeed := 3, _yspeed := 4 }
      one_tile_map empty_layer []).2._xortho = 3 ∧
    (Movable.update (fun a b : ℝ => Real.sqrt (a * a + b * b))
      (fun y x : ℝ => Complex.arg ⟨x, y⟩) (fun _ _ _ _ _ => false) 1
      { (Movable.new : Movable ℝ) with _xspeed := 3, _yspeed := 4 }
      one_tile_map empty_layer []).2._yortho = 4 ∧
    Real.sqrt ((3 - 0) * (3 - 0) + (4 - 0) * (4 - 0)) = 5 := by
  have h5 : Real.sqrt ((3 : ℝ) * 3 + 4 * 4) = 5 := by
    rw [show (3 : ℝ) * 3 + 4 * 4 = 5 ^ 2 by norm_num]
    exact Real.sqrt_sq (by norm_num)
  refine ⟨?_, ?_, ?_, ?_⟩
  · simp only [Movable.new, h5]
    norm_num
  · simp only [Movable.update, Movable.new, h5]
    norm_num
  · simp only [Movable.update, Movable.new, h5]
    norm_num
  · simp only [sub_zero, h5]


/-- What the loop of `Movable::render` computes from the counter `i` on: either
no orientation in `[i, i + k)` is strictly better than `best`, which is
returned, or the first orientation of least distance in `[i, i + k)` is. -/
theorem best_loop_spec (self : Movable α) (cosa sina : α) (k : Nat) :
    ∀ (i : Nat) (best : Nat × α), i + k ≤ self._cosangles.length →
      i + k ≤ self._sinangles.length →
      ∃ r, Movable.best_loop self cosa sina k i best = some r ∧
        ((r = best ∧ ∀ j, i ≤ j → j < i + k → best.2 ≤ Movable.dist self cosa sina j) ∨
         (i ≤ r.1 ∧ r.1 < i + k ∧ r.2 = Movable.dist self cosa sina r.1 ∧ r.2 < best.2 ∧
          (∀ j, i ≤ j → j < i + k → r.2 ≤ Movable.dist self cosa sina j) ∧
          (∀ j, i ≤ j → j < r.1 → r.2 < Movable.dist self cosa sina j))) := by
  induction k with
  | zero =>
    intro i best _ _
    refine ⟨best, rfl, Or.inl ⟨rfl, ?_⟩⟩
    intro j h1 h2
    omega
  | succ k ih =>
    intro i best hc hs
    have hic : i < self._cosangles.length := by omega
    have his : i < self._sinangles.length := by omega
    have hd : |self._cosangles[i] - cosa| + |self._sinangles[i] - sina|
        = Movable.dist self cosa sina i := by
      simp [Movable.dist, List.getD_eq_getElem?_getD, List.getElem?_eq_getElem, hic, his]
    obtain ⟨r, hr, hcase⟩ := ih (i + 1)
      (if best.2 > Movable.dist self cosa sina i then (i, Movable.dist self cosa sina i)
        else best) (by omega) (by omega)
    refine ⟨r, ?_, ?_⟩
    · simp only [Movable.best_loop, List.getElem?_eq_getElem hic, List.getElem?_eq_getElem his,
        Option.bind_eq_bind, Option.some_bind, hd]
      exact hr
    · by_cases hlt : best.2 > Movable.dist self cosa sina i
      · rw [if_pos hlt] at hcase
        rcases hcase with ⟨hrb, hall⟩ | ⟨h1, h2, h3, h4, h5, h6⟩
        · right
          subst hrb
          refine ⟨le_refl _, by omega, rfl, hlt, ?_, ?_⟩
          · intro j hj1 hj2
            rcases Nat.eq_or_lt_of_le hj1 with h | h
            · subst h
              exact le_refl _
            · exact hall j h (by omega)
          · intro j hj1 hj2
            simp only at hj2
            omega
        · right
          simp only at h4
          refine ⟨by omega, by omega, h3, lt_trans h4 hlt, ?_, ?_⟩
          · intro j hj1 hj2
            rcases Nat.eq_or_lt_of_le hj1 with h | h
            · subst h
              exact le_of_lt h4
            · exact h5 j h (by omega)
          · intro j hj1 hj2
            rcases Nat.eq_or_lt_of_le hj1 with h | h
            · subst h
              exact h4
            · exact h6 j h hj2
      · rw [if_neg hlt] at hcase
        rcases hcase with ⟨hrb, hall⟩ | ⟨h1, h2, h3, h4, h5, h6⟩
        · left
          refine ⟨hrb, ?_⟩
          intro j hj1 hj2
          rcases Nat.eq_or_lt_of_le hj1 with h | h
          · subst h
            exact not_lt.mp hlt
          · exact hall j h (by omega)
        · right
          have hi : r.2 < Movable.dist self cosa sina i := lt_of_lt_of_le h4 (not_lt.mp hlt)
          refine ⟨by omega, by omega, h3, h4, ?_, ?_⟩
          · intro j hj1 hj2
            rcases Nat.eq_or_lt_of_le hj1 with h | h
            · subst h
              exact le_of_lt hi
            · exact h5 j h (by omega)
          · intro j hj1 hj2
            rcases Nat.eq_or_lt_of_le hj1 with h | h
            · subst h
              exact hi
            · exact h6 j h hj2


/-- For an entity whose stored cosines and sines are those of its angles, the
distance computed in `Movable::render` is `d_j`. -/
theorem dist_eq_angle_dist (cos sin : α → α) (self : Movable α)
    (hc : self._cosangles = self._angles.map cos) (hs : self._sinangles = self._angles.map sin)
    (j : Nat) (hj : j < self._angles.length) :
    Movable.dist self (cos self._angle) (-sin self._angle) j =
      Movable.angle_dist cos sin self j := by
  simp [Movable.dist, Movable.angle_dist, hc, hs, List.getD_eq_getElem?_getD,
    List.getElem?_eq_getElem, hj]

/-- With cosines and sines of absolute value at most one, `d_j` is at most `4`. -/
theorem angle_dist_le (cos sin : α → α) (hb : ∀ a, |cos a| ≤ 1 ∧ |sin a| ≤ 1)
    (self : Movable α) (j : Nat) : Movable.angle_dist cos sin self j ≤ 4 := by
  have h1 := abs_le.mp (hb (self._angles.getD j 0)).1
  have h2 := abs_le.mp (hb (self._angles.getD j 0)).2
  have h3 := abs_le.mp (hb self._angle).1
  have h4 := abs_le.mp (hb self._angle).2
  have h5 : |cos (self._angles.getD j 0) - cos self._angle| ≤ 2 :=
    abs_le.mpr ⟨by linarith [h1.1, h3.2], by linarith [h1.2, h3.1]⟩
  have h6 : |sin (self._angles.getD j 0) - (-sin self._angle)| ≤ 2 :=
    abs_le.mpr ⟨by linarith [h2.1, h4.1], by linarith [h2.2, h4.2]⟩
  unfold Movable.angle_dist
  linarith

/-- The index chosen by the loop of `Movable::render` is the first one of least
distance `d`. -/
theorem best_idx_argmin_core (cos sin : α → α) (self : Movable α)
    (hn : self._ntextures ≠ 0) (hlen : self._ntextures = self._angles.length)
    (hc : self._cosangles = self._angles.map cos) (hs : self._sinangles = self._angles.map sin)
    (hb : ∀ a, |cos a| ≤ 1 ∧ |sin a| ≤ 1) :
    ∃ b, Movable.best_idx cos sin self = some b ∧ b < self._ntextures ∧
      (∀ j, j < self._ntextures →
        Movable.angle_dist cos sin self b ≤ Movable.angle_dist cos sin self j) ∧
      (∀ j, j < b →
        Movable.angle_dist cos sin self b < Movable.angle_dist cos sin self j) := by
  have hlc : 0 + self._ntextures ≤ self._cosangles.length := by simp [hc, hlen]
  have hls : 0 + self._ntextures ≤ self._sinangles.length := by simp [hs, hlen]
  obtain ⟨r, hr, hcase⟩ := best_loop_spec self (cos self._angle) (-sin self._angle)
    self._ntextures 0 (0, 1000000) hlc hls
  have hD : ∀ j, j < self._ntextures →
      Movable.dist self (cos self._angle) (-sin self._angle) j =
        Movable.angle_dist cos sin self j :=
    fun j hj => dist_eq_angle_dist cos sin self hc hs j (hlen ▸ hj)
  refine ⟨r.1, by simp [Movable.best_idx, hr], ?_⟩
  rcases hcase with ⟨_, hall⟩ | ⟨_, h2, h3, _, h5, h6⟩
  · exfalso
    have h0 := hall 0 (le_refl _) (by omega)
    rw [hD 0 (by omega)] at h0
    have h4 := angle_dist_le cos sin hb self 0
    simp only at h0
    linarith
  · have hlt : r.1 < self._ntextures := by omega
    rw [hD r.1 hlt] at h3
    refine ⟨hlt, ?_, ?_⟩
    · intro j hj
      have := h5 j (Nat.zero_le _) (by omega)
      rw [hD j hj, h3] at this
      exact this
    · intro j hj
      have := h6 j (Nat.zero_le _) hj
      rw [hD j (by omega), h3] at this
      exact this

/-- C5: orientation selection is an arg-min with first-wins ties. For an entity
that passes the guard of `Movable::render` (a non-empty orientation set) and
whose stored cosines and sines are those of its angles, with `cos` and `sin`
of absolute value at most one, the `best_idx` of `Movable::render` is an index
`b` of the set with `d_b <= d_j` for every index `j` and `d_b < d_j` for every
`j < b`: the smallest index that minimises `d`. -/
theorem best_idx_first_argmin (cos sin : α → α) (self : Movable α)
    (hn : self._ntextures ≠ 0) (hlen : self._ntextures = self._angles.length)
    (hc : self._cosangles = self._angles.map cos) (hs : self._sinangles = self._angles.map sin)
    (hb : ∀ a, |cos a| ≤ 1 ∧ |sin a| ≤ 1) :
    ∃ b, Movable.best_idx cos sin self = some b ∧ b < self._ntextures ∧
      (∀ j, j < self._ntextures →
        Movable.angle_dist cos sin self b ≤ Movable.angle_dist cos sin self j) ∧
      (∀ j, j < b →
        Movable.angle_dist cos sin self b < Movable.angle_dist cos sin self j) :=
  best_idx_argmin_core cos sin self hn hlen hc hs hb

/-- C5, at a concrete input over the reals: the four-orientation entity with
heading `π` and the real cosine and sine. -/
theorem best_idx_first_argmin_witness :
    ∃ b, Movable.best_idx Real.cos Real.sin
        (four_orientations Real.cos Real.sin Real.pi Real.pi) = some b ∧
      b < (four_orientations Real.cos Real.sin Real.pi Real.pi)._ntextures ∧
      (∀ j, j < (four_orientations Real.cos Real.sin Real.pi Real.pi)._ntextures →
        Movable.angle_dist Real.cos Real.sin
            (four_orientations Real.cos Real.sin Real.pi Real.pi) b ≤
          Movable.angle_dist Real.cos Real.sin
            (four_orientations Real.cos Real.sin Real.pi Real.pi) j) ∧
      (∀ j, j < b →
        Movable.angle_dist Real.cos Real.sin
            (four_orientations Real.cos Real.sin Real.pi Real.pi) b <
          Movable.angle_dist Real.cos Real.sin
            (four_orientations Real.cos Real.sin Real.pi Real.pi) j) :=
  best_idx_first_argmin Real.cos Real.sin
    (four_orientations Real.cos Real.sin Real.pi Real.pi)
    (by decide) rfl rfl rfl
    (fun a => ⟨Real.abs_cos_le_one a, Real.abs_sin_le_one a⟩)


/-- The real cosines and sines the scenario of C6 needs: those of `91°` and
`270°` in terms of `sin 1°` and `cos 1°`, and `0 < sin 1° < cos 1° <= 1`. -/
theorem trig_facts_91 : Real.cos (91 * Real.pi / 180) = -Real.sin (Real.pi / 180) ∧
    Real.sin (91 * Real.pi / 180) = Real.cos (Real.pi / 180) ∧
    Real.cos (3 * Real.pi / 2) = 0 ∧ Real.sin (3 * Real.pi / 2) = -1 ∧
    0 < Real.sin (Real.pi / 180) ∧ Real.sin (Real.pi / 180) < Real.cos (Real.pi / 180) ∧
    Real.cos (Real.pi / 180) ≤ 1 := by
  have hpi := Real.pi_pos
  refine ⟨?_, ?_, ?_, ?_, ?_, ?_, ?_⟩
  · rw [show 91 * Real.pi / 180 = Real.pi / 180 + Real.pi / 2 by ring, Real.cos_add_pi_div_two]
  · rw [show 91 * Real.pi / 180 = Real.pi / 180 + Real.pi / 2 by ring, Real.sin_add_pi_div_two]
  · rw [show 3 * Real.pi / 2 = Real.pi / 2 + Real.pi by ring, Real.cos_add_pi, Real.cos_pi_div_two,
      neg_zero]
  · rw [show 3 * Real.pi / 2 = Real.pi / 2 + Real.pi by ring, Real.sin_add_pi, Real.sin_pi_div_two]
  · exact Real.sin_pos_of_pos_of_lt_pi (by positivity) (by linarith)
  · have h1 : Real.sin (Real.pi / 180) < Real.sin (Real.pi / 4) :=
      Real.sin_lt_sin_of_lt_of_le_pi_div_two (by linarith) (by linarith) (by linarith)
    have h2 : Real.cos (Real.pi / 4) < Real.cos (Real.pi / 180) :=
      Real.cos_lt_cos_of_nonneg_of_le_pi_div_two (by positivity) (by linarith) (by linarith)
    rw [Real.sin_pi_div_four] at h1
    rw [Real.cos_pi_div_four] at h2
    exact lt_trans h1 h2
  · exact Real.cos_le_one _

/-- With heading `91°` the loop of `Movable::render` ends on the index `3` of the
four-orientation entity: the sign flip `sina = -sin(_angle)` puts the target
`(cos 91°, -sin 91°)` next to `(cos 270°, sin 270°) = (0, -1)`. -/
theorem four_orientations_91_best :
    Movable.best_idx Real.cos Real.sin
      (four_orientations Real.cos Real.sin Real.pi (91 * Real.pi / 180)) = some 3 := by
  obtain ⟨hch, hsh, hc3, hs3, hs0, hsc, hc1⟩ := trig_facts_91
  obtain ⟨b, hb, hlt, hmin, -⟩ := best_idx_argmin_core Real.cos Real.sin
    (four_orientations Real.cos Real.sin Real.pi (91 * Real.pi / 180))
    (by decide) rfl rfl rfl (fun a => ⟨Real.abs_cos_le_one a, Real.abs_sin_le_one a⟩)
  have h3 := hmin 3 (by decide)
  have hb3 : b = 3 := by
    have hlt4 : b < 4 := hlt
    interval_cases b
    · exfalso
      revert h3
      simp only [Movable.angle_dist, four_orientations, List.getD_cons_zero, List.getD_cons_succ,
        hch, hsh, hc3, hs3, Real.cos_zero, Real.sin_zero]
      rcases abs_cases (1 - -Real.sin (Real.pi / 180)) with ha | ha <;>
      rcases abs_cases (0 - -Real.cos (Real.pi / 180)) with hb | hb <;>
      rcases abs_cases (0 - -Real.sin (Real.pi / 180)) with hc | hc <;>
      rcases abs_cases (-1 - -Real.cos (Real.pi / 180)) with hd | hd <;>
      intro h3 <;> linarith [ha.1, hb.1, hc.1, hd.1]
    · exfalso
      revert h3
      simp only [Movable.angle_dist, four_orientations, List.getD_cons_zero, List.getD_cons_succ,
        hch, hsh, hc3, hs3, Real.cos_pi_div_two, Real.sin_pi_div_two]
      rcases abs_cases (1 - -Real.cos (Real.pi / 180)) with ha | ha <;>
      rcases abs_cases (0 - -Real.sin (Real.pi / 180)) with hc | hc <;>
      rcases abs_cases (-1 - -Real.cos (Real.pi / 180)) with hd | hd <;>
      intro h3 <;> linarith [ha.1, hc.1, hd.1]
    · exfalso
      revert h3
      simp only [Movable.angle_dist, four_orientations, List.getD_cons_zero, List.getD_cons_succ,
        hch, hsh, hc3, hs3, Real.cos_pi, Real.sin_pi]
      rcases abs_cases (-1 - -Real.sin (Real.pi / 180)) with ha | ha <;>
      rcases abs_cases (0 - -Real.cos (Real.pi / 180)) with hb | hb <;>
      rcases abs_cases (0 - -Real.sin (Real.pi / 180)) with hc | hc <;>
      rcases abs_cases (-1 - -Real.cos (Real.pi / 180)) with hd | hd <;>
      intro h3 <;> linarith [ha.1, hb.1, hc.1, hd.1]
    · rfl
  rw [hb, hb3]

/-- C6, as the claim states it, fails: for the orientation set `(0°, A), (90°, B),
(180°, C), (270°, D)` and the heading `91°`, over the reals, the index that
`Movable::render` selects is not one whose texture is `B`. -/
theorem four_orientations_91_not_B :
    ¬ ∃ b, Movable.best_idx Real.cos Real.sin
        (four_orientations Real.cos Real.sin Real.pi (91 * Real.pi / 180)) = some b ∧
      (four_orientations Real.cos Real.sin Real.pi (91 * Real.pi / 180))._textures[b]?
        = some sprite_B := by
  rintro ⟨b, hb, ht⟩
  rw [four_orientations_91_best] at hb
  cases hb
  revert ht
  simp [four_orientations, sprite_B, sprite_D]

/-- C6 (amended): for the orientation set `(0°, A), (90°, B), (180°, C), (270°, D)`
and the heading `91°`, over the reals, `Movable::render` blits the sprite `D`, the
one tagged `270°` (when `SDL_RenderCopy` succeeds). -/
theorem four_orientations_91_renders_D :
    Movable.render Real.cos Real.sin (fun _ _ _ => 0)
      (four_orientations Real.cos Real.sin Real.pi (91 * Real.pi / 180)) =
    some (true, [DrawOp.sprite sprite_D ⟨0, 0, 1, 1⟩ ⟨0, 0, 1, 1⟩]) := by
  simp only [Movable.render, four_orientations_91_best]
  simp [four_orientations, truncToInt]


/-- The first loop of `render_cars_obstacles` stores the computed row of every
entity. -/
theorem fill_rows_spec [FloorRing α] (map : tmx_map) (movables : List (Movable α)) (k : Nat) :
    ∀ (i : Nat) (rows : List Nat), i + k = movables.length → rows.length = movables.length →
      (∀ j, j < i → rows[j]? = (movables[j]?).map (fun m => MapRenderer.movable_row map m._yortho)) →
      MapRenderer.fill_rows map movables k i rows =
        some (movables.map (fun m => MapRenderer.movable_row map m._yortho)) := by
  induction k with
  | zero =>
    intro i rows hik hlen hpre
    simp only [MapRenderer.fill_rows, Option.some.injEq]
    apply List.ext_getElem?
    intro j
    by_cases hj : j < i
    · rw [hpre j hj, List.getElem?_map]
    · rw [List.getElem?_eq_none (by omega), List.getElem?_eq_none (by simp; omega)]
  | succ k ih =>
    intro i rows hik hlen hpre
    have hi : i < movables.length := by omega
    have hir : i < rows.length := by omega
    simp only [MapRenderer.fill_rows, List.getElem?_eq_getElem hi, if_pos hir]
    apply ih (i + 1) _ (by omega) (by simp [hlen])
    intro j hj
    rw [List.getElem?_set]
    by_cases hij : i = j
    · subst hij
      simp [hir, List.getElem?_eq_getElem hi]
    · rw [if_neg hij]
      exact hpre j (by omega)


/-- The loop over the entities of `render_cars_obstacles`, when every `render`
succeeds: it blits the entities of the row from the counter `i` on, in order. -/
theorem render_cars_spec [FloorRing α] (cos sin : α → α)
    (SDL_RenderCopy : SDL_TexturePtr → SDL_Rect → SDL_Rect → Int)
    (map : tmx_map) (movables : List (Movable α)) (row : Nat)
    (hok : ∀ m ∈ movables, ∃ ops, Movable.render cos sin SDL_RenderCopy m = some (true, ops))
    (k : Nat) :
    ∀ i, i + k = movables.length →
      MapRenderer.render_cars cos sin SDL_RenderCopy movables
          (movables.map (fun m => MapRenderer.movable_row map m._yortho)) row k i =
        some (true, (MapRenderer.entities_of_row map (movables.drop i) row).flatMap
          (Movable.blit cos sin SDL_RenderCopy)) := by
  induction k with
  | zero =>
    intro i hik
    have : movables.drop i = [] := List.drop_eq_nil_of_le (by omega)
    simp [MapRenderer.render_cars, MapRenderer.entities_of_row, this]
  | succ k ih =>
    intro i hik
    have hi : i < movables.length := by omega
    obtain ⟨ops, hops⟩ := hok movables[i] (List.getElem_mem hi)
    have hblit : Movable.blit cos sin SDL_RenderCopy movables[i] = ops := by
      simp [Movable.blit, hops]
    rw [List.drop_eq_getElem_cons hi]
    simp only [MapRenderer.render_cars, List.getElem?_map, List.getElem?_eq_getElem hi,
      Option.map_some', ih (i + 1) (by omega), MapRenderer.entities_of_row, List.filter_cons]
    by_cases hr : MapRenderer.movable_row map movables[i]._yortho = row
    · simp [hr, hops, hblit]
    · simp [hr]

/-- The loop over the columns of `render_cars_obstacles` draws the tiles of the
row from the counter `col` on, left to right. -/
theorem render_tiles_spec (gid_clear_flags : Nat → Nat) (map : tmx_map) (layer : tmx_layer)
    (row : Nat) (k : Nat) :
    ∀ col, MapRenderer.render_tiles gid_clear_flags map layer row k col =
      (List.range' col k).map (fun c =>
        DrawOp.tile (gid_clear_flags (layer.gids ((row * map.width + c) % 2 ^ 32))) c row) := by
  induction k with
  | zero =>
    intro col
    simp [MapRenderer.render_tiles]
  | succ k ih =>
    intro col
    simp [MapRenderer.render_tiles, List.range'_succ, ih]

/-- The loop over the rows of `render_cars_obstacles`, when every `render`
succeeds: from the counter `row` on, for each row the entities of the row and
then its tiles. -/
theorem render_rows_spec [FloorRing α] (cos sin : α → α) (gid_clear_flags : Nat → Nat)
    (SDL_RenderCopy : SDL_TexturePtr → SDL_Rect → SDL_Rect → Int)
    (map : tmx_map) (layer : tmx_layer) (movables : List (Movable α))
    (hok : ∀ m ∈ movables, ∃ ops, Movable.render cos sin SDL_RenderCopy m = some (true, ops))
    (k : Nat) :
    ∀ row, MapRenderer.render_rows cos sin gid_clear_flags SDL_RenderCopy map layer
        movables.length movables
        (movables.map (fun m => MapRenderer.movable_row map m._yortho)) k row =
      some (true, (List.range' row k).flatMap (fun r =>
        (MapRenderer.entities_of_row map movables r).flatMap
            (Movable.blit cos sin SDL_RenderCopy) ++
          MapRenderer.tiles_of_row gid_clear_flags map layer r)) := by
  induction k with
  | zero =>
    intro row
    simp [MapRenderer.render_rows]
  | succ k ih =>
    intro row
    have hcars := render_cars_spec cos sin SDL_RenderCopy map movables row hok
      movables.length 0 (by omega)
    rw [List.drop_zero] at hcars
    simp only [MapRenderer.render_rows, hcars, ih (row + 1), render_tiles_spec,
      List.range'_succ, List.flatMap_cons, MapRenderer.tiles_of_row, List.range_eq_range',
      List.append_assoc]

/-- The draw sequence of `render_cars_obstacles` when every `render` succeeds. -/
theorem render_cars_obstacles_core [FloorRing α] (cos sin : α → α)
    (gid_clear_flags : Nat → Nat)
    (SDL_RenderCopy : SDL_TexturePtr → SDL_Rect → SDL_Rect → Int)
    (self : MapRenderer α)
    (hn : self._nmovables = self._movables.length)
    (hok : ∀ m ∈ self._movables,
      ∃ ops, Movable.render cos sin SDL_RenderCopy m = some (true, ops)) :
    MapRenderer.render_cars_obstacles cos sin gid_clear_flags SDL_RenderCopy self =
      some (true, MapRenderer.painters_order cos sin gid_clear_flags SDL_RenderCopy self,
        { self with
          _movable_rows :=
            self._movables.map (fun m => MapRenderer.movable_row self._map m._yortho) }) := by
  have hfill := fill_rows_spec self._map self._movables self._movables.length 0
    (resize self._movable_rows self._movables.length) (by omega)
    (by simp [resize]; omega) (by intro j hj; omega)
  simp only [MapRenderer.render_cars_obstacles, hn, hfill,
    render_rows_spec cos sin gid_clear_flags SDL_RenderCopy self._map self._obstacles_layer
      self._movables hok, MapRenderer.painters_order, List.range_eq_range']


/-- The truncation of a non-negative `d` with `z <= d < z + 1` is `z`. -/
theorem truncToInt_eq [FloorRing α] (d : α) (z : Int) (h0 : 0 ≤ d) (h1 : (z : α) ≤ d)
    (h2 : d < (z : α) + 1) : truncToInt d = z := by
  rw [truncToInt, if_pos h0]
  exact Int.floor_eq_iff.mpr ⟨h1, h2⟩

/-- What `Movable::render` does for a single-view entity when `SDL_RenderCopy`
succeeds: whatever `cos` and `sin` are, it blits the one texture at
`(x, y / 2)`. -/
theorem single_view_render [FloorRing α] (cos sin : α → α) (tex : SDL_TexturePtr) (x y : α) :
    Movable.render cos sin (fun _ _ _ => 0) (single_view cos sin tex x y) =
      some (true, [DrawOp.sprite tex ⟨0, 0, 1, 1⟩ ⟨truncToInt x, truncToInt (y / 2), 1, 1⟩]) := by
  have hb : Movable.best_idx cos sin (single_view cos sin tex x y) = some 0 := by
    simp only [Movable.best_idx, single_view, Movable.best_loop, List.getElem?_cons_zero,
      Option.bind_eq_bind, Option.some_bind]
    split_ifs <;> rfl
  simp only [Movable.render, hb]
  simp [single_view]

/-- C8: painter's order. For every map, obstacle layer and entity list (with
`_nmovables` the number of entities) whose entities all render successfully,
`render_cars_obstacles` returns `true` and its draw sequence is, for
`r = 0, 1, ..., height-1` in ascending order and each `r` once, first the
blits of the entities whose computed row equals `r`, in entity-list order, then
the tiles `(col, r)` for `col = 0..width-1` left to right. -/
theorem render_cars_obstacles_painters_order [FloorRing α] (cos sin : α → α)
    (gid_clear_flags : Nat → Nat)
    (SDL_RenderCopy : SDL_TexturePtr → SDL_Rect → SDL_Rect → Int)
    (self : MapRenderer α)
    (hn : self._nmovables = self._movables.length)
    (hok : ∀ m ∈ self._movables,
      ∃ ops, Movable.render cos sin SDL_RenderCopy m = some (true, ops)) :
    MapRenderer.render_cars_obstacles cos sin gid_clear_flags SDL_RenderCopy self =
      some (true, MapRenderer.painters_order cos sin gid_clear_flags SDL_RenderCopy self,
        { self with
          _movable_rows :=
            self._movables.map (fun m => MapRenderer.movable_row self._map m._yortho) }) :=
  render_cars_obstacles_core cos sin gid_clear_flags SDL_RenderCopy self hn hok

/-- The computed rows of the two entities of the scenario of the painter's order
are both `3`. -/
theorem two_in_row_three_rows :
    MapRenderer.movable_row five_row_map (96 : ℝ) = 3 ∧
    MapRenderer.movable_row five_row_map (112 : ℝ) = 3 := by
  have h1 : truncToInt ((96 : ℝ) / ((32 : Nat) : ℝ)) = 3 :=
    truncToInt_eq _ 3 (by norm_num) (by norm_num) (by norm_num)
  have h2 : truncToInt ((112 : ℝ) / ((32 : Nat) : ℝ)) = 3 :=
    truncToInt_eq _ 3 (by norm_num) (by norm_num) (by norm_num)
  constructor
  · simp only [MapRenderer.movable_row, five_row_map, h1]
    decide
  · simp only [MapRenderer.movable_row, five_row_map, h2]
    decide


/-- C8, at the scenario of the specification: in the five-row map with the
entities `e1`, `e2`, both of computed row `3`, every entity renders and the draw
sequence is the tiles of the rows `0`, `1`, `2`, then `e1`, then `e2`, then the
tile of row `3`, then the tile of row `4`. -/
theorem render_cars_obstacles_painters_order_witness :
    MapRenderer.render_cars_obstacles Real.cos Real.sin id (fun _ _ _ => 0)
        (two_in_row_three Real.cos Real.sin) =
      some (true,
        [DrawOp.tile 0 0 0, DrawOp.tile 0 0 1, DrawOp.tile 0 0 2,
         DrawOp.sprite 11 ⟨0, 0, 1, 1⟩ ⟨5, 48, 1, 1⟩,
         DrawOp.sprite 12 ⟨0, 0, 1, 1⟩ ⟨20, 56, 1, 1⟩,
         DrawOp.tile 0 0 3, DrawOp.tile 0 0 4],
        { two_in_row_three Real.cos Real.sin with _movable_rows := [3, 3] }) := by
  have hok : ∀ m ∈ (two_in_row_three Real.cos Real.sin)._movables,
      ∃ ops, Movable.render Real.cos Real.sin (fun _ _ _ => 0) m = some (true, ops) := by
    intro m hm
    simp only [two_in_row_three, List.mem_cons, List.mem_singleton, List.not_mem_nil,
      or_false] at hm
    rcases hm with h | h <;> subst h <;> exact ⟨_, single_view_render _ _ _ _ _⟩
  rw [render_cars_obstacles_painters_order Real.cos Real.sin id (fun _ _ _ => 0)
    (two_in_row_three Real.cos Real.sin) rfl hok]
  have hr := two_in_row_three_rows
  have h5 : truncToInt (5 : ℝ) = 5 := truncToInt_eq _ 5 (by norm_num) (by norm_num) (by norm_num)
  have h20 : truncToInt (20 : ℝ) = 20 :=
    truncToInt_eq _ 20 (by norm_num) (by norm_num) (by norm_num)
  have h48 : truncToInt ((96 : ℝ) / 2) = 48 :=
    truncToInt_eq _ 48 (by norm_num) (by norm_num) (by norm_num)
  have h56 : truncToInt ((112 : ℝ) / 2) = 56 :=
    truncToInt_eq _ 56 (by norm_num) (by norm_num) (by norm_num)
  have hrange : List.range 5 = [0, 1, 2, 3, 4] := rfl
  have hrange1 : List.range 1 = [0] := rfl
  have r1 : MapRenderer.movable_row five_row_map
      (single_view Real.cos Real.sin 11 5 96)._yortho = 3 := hr.1
  have r2 : MapRenderer.movable_row five_row_map
      (single_view Real.cos Real.sin 12 20 112)._yortho = 3 := hr.2
  have hw : five_row_map.width = 1 := rfl
  have hh : five_row_map.height = 5 := rfl
  simp [MapRenderer.painters_order, MapRenderer.entities_of_row, MapRenderer.tiles_of_row,
    two_in_row_three, r1, r2, Movable.blit, single_view_render, hw, hh, empty_layer,
    hrange, hrange1, h5, h20, h48, h56]


/-- C7, the code at an input where the claim fails: in the one-row map with tile
height `32`, the entity at `y = 32 = height * th` gets the row `1 = height`, and
`render_cars_obstacles` returns `true` with a draw sequence that holds the tile
`(0, 0)` only: the entity is not drawn. -/
theorem below_last_row_not_drawn :
    MapRenderer.movable_row one_tile_map (32 : ℝ) = one_tile_map.height ∧
    MapRenderer.render_cars_obstacles Real.cos Real.sin id (fun _ _ _ => 0)
        (below_last_row Real.cos Real.sin) =
      some (true, [DrawOp.tile 0 0 0],
        { below_last_row Real.cos Real.sin with _movable_rows := [1] }) := by
  have h1 : truncToInt ((32 : ℝ) / ((32 : Nat) : ℝ)) = 1 :=
    truncToInt_eq _ 1 (by norm_num) (by norm_num) (by norm_num)
  have hrow : MapRenderer.movable_row one_tile_map (32 : ℝ) = 1 := by
    simp only [MapRenderer.movable_row, one_tile_map, h1]
    decide
  have hok : ∀ m ∈ (below_last_row Real.cos Real.sin)._movables,
      ∃ ops, Movable.render Real.cos Real.sin (fun _ _ _ => 0) m = some (true, ops) := by
    intro m hm
    simp only [below_last_row, List.mem_singleton] at hm
    subst hm
    exact ⟨_, single_view_render _ _ _ _ _⟩
  refine ⟨hrow, ?_⟩
  rw [render_cars_obstacles_core Real.cos Real.sin id (fun _ _ _ => 0)
    (below_last_row Real.cos Real.sin) rfl hok]
  have r1 : MapRenderer.movable_row one_tile_map
      (single_view Real.cos Real.sin 7 0 32)._yortho = 1 := hrow
  have hw : one_tile_map.width = 1 := rfl
  have hh : one_tile_map.height = 1 := rfl
  have hrange1 : List.range 1 = [0] := rfl
  simp [MapRenderer.painters_order, MapRenderer.entities_of_row, MapRenderer.tiles_of_row,
    below_last_row, r1, hw, hh, empty_layer, hrange1]

/-- What `create_movable` does when `_nmovables` is the number of entities: it
appends a `Movable()`, calls `create` on it and returns the `bool` of `create`,
keeping the new entity and the incremented count whatever that `bool` is. -/
theorem create_movable_eq [FloorRing α] (cos sin : α → α) (self : MapRenderer α)
    (doc : Option (XmlDoc α)) (maxspeed xortho yortho angle : α)
    (hn : self._nmovables = self._movables.length)
    (hlt : self._movables.length + 1 < 2 ^ 32) :
    MapRenderer.create_movable cos sin self doc maxspeed xortho yortho angle =
      some ((Movable.create cos sin Movable.new self._renderer doc maxspeed xortho yortho angle).1,
        { self with
          _nmovables := self._movables.length + 1
          _movables := self._movables ++
            [(Movable.create cos sin Movable.new self._renderer doc maxspeed xortho yortho
              angle).2] }) := by
  have h1 : (self._movables.length + 1) % 2 ^ 32 = self._movables.length + 1 :=
    Nat.mod_eq_of_lt hlt
  have h0 : (self._movables.length + 1 + 2 ^ 32 - 1) % 2 ^ 32 = self._movables.length := by
    rw [show self._movables.length + 1 + 2 ^ 32 - 1 = self._movables.length + 2 ^ 32 by omega,
      Nat.add_mod_right]
    exact Nat.mod_eq_of_lt (by omega)
  unfold MapRenderer.create_movable
  simp only [hn, h1, h0]
  rw [List.getElem?_append_right (le_refl _)]
  simp

/-- C9, the code at inputs where the claim fails: `create_movable` on a renderer
before `init` (null `_renderer`) returns `false` and leaves a fresh `Movable()` in
the entity list, with `_nmovables = 1`; with a renderer but an unparsable
descriptor it returns `false` and leaves an entity without texture. -/
theorem create_movable_failure_keeps_entity [FloorRing α] (cos sin : α → α)
    (doc : Option (XmlDoc α)) (maxspeed xortho yortho angle : α) :
    MapRenderer.create_movable cos sin (uninitialised_renderer : MapRenderer α) doc
        maxspeed xortho yortho angle =
      some (false, { (uninitialised_renderer : MapRenderer α) with
        _nmovables := 1, _movables := [Movable.new] }) ∧
    MapRenderer.create_movable cos sin (empty_renderer : MapRenderer α) none
        maxspeed xortho yortho angle =
      some (false, { (empty_renderer : MapRenderer α) with
        _nmovables := 1,
        _movables := [{ (Movable.new : Movable α) with
          _maxspeed := maxspeed, _xortho := xortho, _yortho := yortho, _angle := angle }] }) := by
  constructor
  · rw [create_movable_eq cos sin uninitialised_renderer doc maxspeed xortho yortho angle rfl
      (by norm_num [uninitialised_renderer])]
    simp [Movable.create, uninitialised_renderer]
  · rw [create_movable_eq cos sin empty_renderer none maxspeed xortho yortho angle rfl
      (by norm_num [empty_renderer])]
    simp [Movable.create, empty_renderer]

/-- The conversion `(int) 1` is `1`. -/
theorem toInt32_one : toInt32 1 = 1 := by decide

/-- C10, the code at an input where the claim fails: with one entity, the guard of
`MapRenderer::update` accepts the joystick index `which = 1`, the access
`_movables[1]` is outside the entity list, and so is the run of
`MapRenderer::update` on this one event. -/
theorem joyaxis_guard_accepts_nmovables (hypot atan2 : α → α → α) (cos sin : α → α)
    (point_in_layer_staggered : tmx_map → tmx_layer → α → α → List Bool → Bool)
    (time : Nat → α) :
    MapRenderer.joyaxis_guard (one_entity_renderer : MapRenderer α) 1 = true ∧
    (one_entity_renderer : MapRenderer α)._movables.length = 1 ∧
    MapRenderer.on_joyaxismotion (one_entity_renderer : MapRenderer α) 1 0 500 = none ∧
    MapRenderer.update hypot atan2 cos sin point_in_layer_staggered time
      [SDL_Event.SDL_JOYAXISMOTION 1 0 500] (one_entity_renderer : MapRenderer α) = none := by
  have hg : MapRenderer.joyaxis_guard (one_entity_renderer : MapRenderer α) 1 = true := by
    simp [MapRenderer.joyaxis_guard, one_entity_renderer, toInt32_one]
  have hj : MapRenderer.on_joyaxismotion (one_entity_renderer : MapRenderer α) 1 0 500 = none := by
    rw [MapRenderer.on_joyaxismotion, if_pos hg]
    simp [one_entity_renderer]
  refine ⟨hg, rfl, hj, ?_⟩
  simp only [MapRenderer.update, MapRenderer.poll_events, hj]

end Theorems

end Rostiled
